import Mathlib

/-!
Shallow embedding of the VoiceCleanse relay server and client glue code
(`server/apiMonitor.ts`, `server/emailService.ts`, `server/notificationService.ts`,
`server/routes.ts` + `server/storage.ts`, `client/src/services/apiConfigService.ts`,
`client/src/components/AudioUploader.tsx`, `client/src/hooks/useAudioSeparation.ts`),
together with theorems settling the behavioural claims about it.

Modelling conventions:
* A JavaScript `Map<string, T>` becomes an association list `List (String × T)`
  with `alookup` / `ainsert` / `removeKey` below.
* Timestamps (`Date.now()`, `new Date().getTime()`) are `Nat` milliseconds.
* The JavaScript `x || d` fallback on optional strings (where both `undefined`
  and the empty string are falsy) is `jsOrElse`.
* Network effects are parameters: a probe outcome, or a Boolean saying whether
  an SMTP / webhook delivery succeeded.
* `setInterval` handles become fresh numeric timer ids; the set of live timers
  is tracked explicitly so that claims about duplicate timers are expressible.
-/

/-- Association-list lookup, first match wins (models `Map.get`). -/
def alookup {α : Type} (k : String) : List (String × α) → Option α
  | [] => none
  | (k', v) :: m => if k = k' then some v else alookup k m

/-- Removal of every binding of key `k` (models `Map.delete`). -/
def removeKey {α : Type} (k : String) (m : List (String × α)) : List (String × α) :=
  m.filter (fun p => decide (p.1 ≠ k))

/-- Insert-or-overwrite of the binding of key `k` (models `Map.set`). -/
def ainsert {α : Type} (k : String) (v : α) (m : List (String × α)) : List (String × α) :=
  (k, v) :: removeKey k m

/-- JavaScript `s || d` on an optional string: `undefined` and `""` fall back to `d`. -/
def jsOrElse (s : Option String) (d : String) : String :=
  match s with
  | none => d
  | some v => if v = "" then d else v

/-- Notification severity level, from the literal union `'info' | 'warning' | 'error'`. -/
inductive Severity
  | info
  | warning
  | error
deriving DecidableEq, Repr

/-- The string used for a severity inside a cooldown key. -/
def Severity.toKeyString : Severity → String
  | .info => "info"
  | .warning => "warning"
  | .error => "error"

/-- Shared cooldown test of both transports: `Date.now() - lastTime < cooldownMs`
on the recorded send time, `false` when no send was ever recorded under the key. -/
def isInCooldownAt (cooldownMs : Nat) (now : Nat) (times : List (String × Nat))
    (key : String) : Bool :=
  match alookup key times with
  | none => false
  | some lastTime => now - lastTime < cooldownMs

namespace EmailService

/-- Cooldown length in minutes, 180 in `emailService.ts`. -/
def COOLDOWN_MINUTES : Nat := 180

/-- The cooldown window in milliseconds, `COOLDOWN_MINUTES * 60 * 1000`. -/
def cooldownMs : Nat := COOLDOWN_MINUTES * 60 * 1000

/-- State of the `EmailService` singleton: whether a transporter was configured,
and the `lastNotificationTime` map. -/
structure EmailState where
  hasTransporter : Bool
  lastNotificationTime : List (String × Nat)
deriving DecidableEq, Repr

/-- Fallback used in the key when no target URL is supplied. -/
def unknownUrlLabel : String := "unknown"

/-- The composite cooldown key: severity, title and target URL (with the
fallback label when absent) joined by underscores. -/
def notificationKey (severity : Severity) (title : String) (apiUrl : Option String) :
    String :=
  severity.toKeyString ++ "_" ++ title ++ "_" ++ jsOrElse apiUrl unknownUrlLabel

/-- Method `EmailService.isInCooldown`. -/
def isInCooldown (now : Nat) (st : EmailState) (key : String) : Bool :=
  isInCooldownAt cooldownMs now st.lastNotificationTime key

/-- Outcome of one `sendNotification` call: `attempted` records whether
`transporter.sendMail` was invoked, `sent` is the returned Boolean, and
`state` is the service state afterwards. -/
structure SendResult where
  attempted : Bool
  sent : Bool
  state : EmailState
deriving DecidableEq, Repr

/-- Method `EmailService.sendNotification`; `deliveryOk` says whether the
`transporter.sendMail` promise resolves (the SMTP delivery outcome). -/
def sendNotification (st : EmailState) (severity : Severity) (title : String)
    (apiUrl : Option String) (now : Nat) (deliveryOk : Bool) : SendResult :=
  if st.hasTransporter = false then
    ⟨false, false, st⟩
  else
    let key := notificationKey severity title apiUrl
    if isInCooldown now st key then
      ⟨false, false, st⟩
    else if deliveryOk then
      ⟨true, true,
        { st with lastNotificationTime := ainsert key now st.lastNotificationTime }⟩
    else
      ⟨true, false, st⟩

/-- Title of the connection-error notification. -/
def connectionErrorTitle : String := "API連線失敗"

/-- Title of the recovery notification. -/
def recoveredTitle : String := "API連線已恢復"

/-- Method `EmailService.notifyApiConnectionError` (the cooldown-relevant shape:
severity `error`, fixed title, keyed on the monitored URL). -/
def notifyApiConnectionError (st : EmailState) (apiUrl : String) (now : Nat)
    (deliveryOk : Bool) : SendResult :=
  sendNotification st .error connectionErrorTitle (some apiUrl) now deliveryOk

/-- Method `EmailService.notifyApiRecovered`. -/
def notifyApiRecovered (st : EmailState) (apiUrl : String) (now : Nat)
    (deliveryOk : Bool) : SendResult :=
  sendNotification st .info recoveredTitle (some apiUrl) now deliveryOk

end EmailService

namespace NotificationService

/-- Cooldown length in minutes, 15 in `notificationService.ts`. -/
def COOLDOWN_MINUTES : Nat := 15

/-- The cooldown window in milliseconds. -/
def cooldownMs : Nat := COOLDOWN_MINUTES * 60 * 1000

/-- State of the Discord-webhook `NotificationService`: the (possibly absent)
webhook URL and the `lastNotificationTime` map. -/
structure NotifState where
  discordWebhookUrl : Option String
  lastNotificationTime : List (String × Nat)
deriving DecidableEq, Repr

/-- The cooldown key of `NotificationService`: severity and title joined by an
underscore — unlike the email transport, it does NOT include the target URL. -/
def notificationKey (severity : Severity) (title : String) : String :=
  severity.toKeyString ++ "_" ++ title

/-- Method `NotificationService.isInCooldown`. -/
def isInCooldown (now : Nat) (st : NotifState) (key : String) : Bool :=
  isInCooldownAt cooldownMs now st.lastNotificationTime key

/-- Method `NotificationService.sendNotification`; `webhookOk` says whether the
Discord POST returns an ok response. -/
def sendNotification (st : NotifState) (severity : Severity) (title : String)
    (now : Nat) (webhookOk : Bool) : Bool × NotifState :=
  let key := notificationKey severity title
  if isInCooldown now st key then
    (false, st)
  else
    let success := match st.discordWebhookUrl with
      | some _ => webhookOk
      | none => false
    if success then
      (true, { st with lastNotificationTime := ainsert key now st.lastNotificationTime })
    else
      (false, st)

/-- Title of the connection-error notification (same text as the email one). -/
def connectionErrorTitle : String := "API連線失敗"

/-- Method `NotificationService.notifyApiConnectionError` — the URL appears only
in the message body, never in the cooldown key. -/
def notifyApiConnectionError (st : NotifState) (_apiUrl : String) (now : Nat)
    (webhookOk : Bool) : Bool × NotifState :=
  sendNotification st .error connectionErrorTitle now webhookOk

end NotificationService

namespace ApiMonitor

/-- Probe period, one hour. -/
def CHECK_INTERVAL_MS : Nat := 60 * 60 * 1000

/-- Consecutive failures after which a notification fires (1, immediate). -/
def MAX_RETRIES : Nat := 1

/-- Probe timeout, ten seconds. -/
def TIMEOUT_MS : Nat := 10000

/-- Record `ApiHealthStatus` from `apiMonitor.ts`. -/
structure ApiHealthStatus where
  isHealthy : Bool
  lastCheck : Nat
  lastError : Option String
  consecutiveFailures : Nat
  uptime : Nat
deriving DecidableEq, Repr

/-- A notify call the monitor makes into the email service (before any
cooldown gating, which lives in `EmailService`). -/
inductive NotifyEvent
  | connectionError (apiUrl : String) (retryCount : Nat)
  | recovered (apiUrl : String)
deriving DecidableEq, Repr

/-- Result of one health probe: the fetch either returned ok at time `now`, or
failed (non-2xx status, network error or timeout) with an error message. -/
inductive ProbeOutcome
  | success (now : Nat)
  | failure (now : Nat) (err : String)
deriving DecidableEq, Repr

/-- State of the `ApiMonitor` singleton.  `healthStatus` and
`monitoringIntervals` are the two maps of the class; `activeTimers` is the set
of live `setInterval` handles as (url, timer id) pairs, `nextTimerId` a fresh
id supply, `probeCount` counts issued fetches, and `notifLog` the notify calls
made so far. -/
structure MonitorState where
  healthStatus : List (String × ApiHealthStatus)
  monitoringIntervals : List (String × Nat)
  activeTimers : List (String × Nat)
  nextTimerId : Nat
  probeCount : Nat
  notifLog : List NotifyEvent
deriving DecidableEq, Repr

/-- The monitor before any call. -/
def initMonitorState : MonitorState := ⟨[], [], [], 0, 0, []⟩

/-- Method `handleHealthyResponse`: mark healthy, reset the failure counter,
and notify recovery when the prior state was unhealthy (the `lastCheck` guard
compares the just-assigned current time against zero). -/
def handleHealthyResponse (apiUrl : String) (now : Nat) (status : ApiHealthStatus) :
    ApiHealthStatus × List NotifyEvent :=
  let wasUnhealthy := !status.isHealthy
  let status' : ApiHealthStatus :=
    { isHealthy := true, lastCheck := now, lastError := none,
      consecutiveFailures := 0, uptime := status.uptime }
  if wasUnhealthy && decide (0 < now) then
    (status', [ .recovered apiUrl ])
  else
    (status', [])

/-- Method `handleUnhealthyResponse`: mark unhealthy, bump the failure counter,
and notify only on the healthy→unhealthy edge once the counter reaches
`MAX_RETRIES`. -/
def handleUnhealthyResponse (apiUrl : String) (now : Nat) (err : String)
    (status : ApiHealthStatus) : ApiHealthStatus × List NotifyEvent :=
  let wasHealthy := status.isHealthy
  let status' : ApiHealthStatus :=
    { isHealthy := false, lastCheck := now, lastError := some err,
      consecutiveFailures := status.consecutiveFailures + 1, uptime := status.uptime }
  if wasHealthy && decide (MAX_RETRIES ≤ status'.consecutiveFailures) then
    (status', [ .connectionError apiUrl status'.consecutiveFailures ])
  else
    (status', [])

/-- Method `checkApiHealth`: no-op when the URL has no status record (the early
`if (!status) return`), otherwise issue the probe and dispatch on its outcome. -/
def checkApiHealth (s : MonitorState) (apiUrl : String) (o : ProbeOutcome) :
    MonitorState :=
  match alookup apiUrl s.healthStatus with
  | none => s
  | some status =>
    let step := match o with
      | .success now => handleHealthyResponse apiUrl now status
      | .failure now err => handleUnhealthyResponse apiUrl now err status
    { s with healthStatus := ainsert apiUrl step.1 s.healthStatus,
             probeCount := s.probeCount + 1,
             notifLog := s.notifLog ++ step.2 }

/-- Method `stopMonitoring`: clear and forget the interval timer of the URL,
when there is one; the status record is left in place. -/
def stopMonitoring (s : MonitorState) (apiUrl : String) : MonitorState :=
  match alookup apiUrl s.monitoringIntervals with
  | none => s
  | some timerId =>
    { s with activeTimers := s.activeTimers.erase (apiUrl, timerId),
             monitoringIntervals := removeKey apiUrl s.monitoringIntervals }

/-- The status record `startMonitoring` installs: unhealthy by default so that
the first successful check triggers a recovery notification. -/
def initialStatus (now : Nat) : ApiHealthStatus :=
  { isHealthy := false, lastCheck := now, lastError := none,
    consecutiveFailures := 0, uptime := 100 }

/-- Method `startMonitoring` up to (but not including) its immediate
`checkApiHealth` call: stop any existing monitoring, install the default
status record, and schedule a fresh recurring timer. -/
def startMonitoringSetup (s : MonitorState) (apiUrl : String) (now : Nat) :
    MonitorState :=
  let s1 := stopMonitoring s apiUrl
  let s2 := { s1 with healthStatus := ainsert apiUrl (initialStatus now) s1.healthStatus }
  { s2 with activeTimers := s2.activeTimers ++ [ (apiUrl, s2.nextTimerId) ],
            monitoringIntervals := ainsert apiUrl s2.nextTimerId s2.monitoringIntervals,
            nextTimerId := s2.nextTimerId + 1 }

/-- Method `startMonitoring`: the setup above followed by the immediate health
check it fires, whose probe outcome is `firstProbe`. -/
def startMonitoring (s : MonitorState) (apiUrl : String) (now : Nat)
    (firstProbe : ProbeOutcome) : MonitorState :=
  checkApiHealth (startMonitoringSetup s apiUrl now) apiUrl firstProbe

/-- Method `getHealthStatus`. -/
def getHealthStatus (s : MonitorState) (apiUrl : String) : Option ApiHealthStatus :=
  alookup apiUrl s.healthStatus

/-- Method `checkNow`: force a probe, then return the record of the URL. -/
def checkNow (s : MonitorState) (apiUrl : String) (o : ProbeOutcome) :
    Option ApiHealthStatus × MonitorState :=
  let s' := checkApiHealth s apiUrl o
  (getHealthStatus s' apiUrl, s')

/-- A sequence of scheduled ticks for one URL, each with its probe outcome. -/
def runChecks (s : MonitorState) (apiUrl : String) (os : List ProbeOutcome) :
    MonitorState :=
  os.foldl (fun t o => checkApiHealth t apiUrl o) s

/-- The live timers belonging to one URL. -/
def timersOf (apiUrl : String) (s : MonitorState) : List (String × Nat) :=
  s.activeTimers.filter (fun p => decide (p.1 = apiUrl))

/-- Consistency of the timer bookkeeping: every URL has exactly the live timer
its `monitoringIntervals` entry names, and no other. -/
def timersInv (s : MonitorState) : Prop :=
  ∀ u : String, timersOf u s =
    (match alookup u s.monitoringIntervals with
     | some timerId => [ (u, timerId) ]
     | none => [])

end ApiMonitor

namespace MemStorage

/-- Record `ApiConfig` from the shared schema. -/
structure ApiConfig where
  id : String
  apiUrl : String
  isActive : Bool
  description : Option String
  updatedAt : Nat
  updatedBy : Option String
deriving DecidableEq, Repr

/-- Method `MemStorage.setApiConfig`: total replacement, keeping only the old
id (or a fresh one when unset) and stamping a fresh `updatedAt`. -/
def setApiConfig (prev : Option ApiConfig) (freshId : String) (now : Nat)
    (apiUrl : String) (isActive : Bool) (description : Option String)
    (updatedBy : Option String) : ApiConfig :=
  { apiUrl := apiUrl, isActive := isActive, description := description,
    updatedBy := updatedBy,
    id := jsOrElse (prev.map (fun c => c.id)) freshId,
    updatedAt := now }

end MemStorage

namespace Routes

/-- Request body of `POST /api/config` after schema validation. -/
structure UpdateApiConfigRequest where
  apiUrl : String
  description : Option String
  adminPassword : String
deriving DecidableEq, Repr

/-- Fallback description used when the request carries none. -/
def defaultDescription : String := "API配置已更新"

/-- The `updatedBy` label the handler stores. -/
def adminLabel : String := "admin"

/-- Built-in default of the `ADMIN_PASSWORD` constant in `storage.ts`. -/
def defaultAdminPassword : String := "fculab224"

/-- Handler of `POST /api/config` (config part): password mismatch is a 401
with no mutation, otherwise the stored config is wholly replaced.  Returns the
HTTP status code and the stored config afterwards. -/
def postApiConfig (ADMIN_PASSWORD : String) (req : UpdateApiConfigRequest)
    (prev : Option MemStorage.ApiConfig) (freshId : String) (now : Nat) :
    Nat × Option MemStorage.ApiConfig :=
  if req.adminPassword ≠ ADMIN_PASSWORD then
    (401, prev)
  else
    let updated := MemStorage.setApiConfig prev freshId now req.apiUrl true
      (some (jsOrElse req.description defaultDescription)) (some adminLabel)
    (200, some updated)

end Routes

/-- Task status union from the shared schema. -/
inductive TaskStatus
  | queued
  | processing
  | completed
  | failed
deriving DecidableEq, Repr

/-- The task snapshot the client polls (fields the workflow reads). -/
structure AudioTask where
  status : TaskStatus
  progress : Nat
  message : String
  error : Option String
deriving DecidableEq, Repr

namespace AudioSeparationAPI

/-- Timer bookkeeping of one `AudioSeparationAPI` instance: the
`pollingInterval` field, plus the set of live interval ids. -/
structure PollTimers where
  nextId : Nat
  activeIntervals : List Nat
  pollingInterval : Option Nat
deriving DecidableEq, Repr

/-- A freshly constructed instance: `pollingInterval = null`. -/
def initPollTimers : PollTimers := ⟨0, [], none⟩

/-- Timer effect of `startPolling`: clear any previous interval, then schedule
and remember a fresh one. -/
def startPollingTimers (s : PollTimers) : PollTimers :=
  let cleared := match s.pollingInterval with
    | some timerId => s.activeIntervals.erase timerId
    | none => s.activeIntervals
  { nextId := s.nextId + 1, activeIntervals := cleared ++ [ s.nextId ],
    pollingInterval := some s.nextId }

/-- Method `stopPolling`: clear the current interval and null the handle. -/
def stopPollingTimers (s : PollTimers) : PollTimers :=
  match s.pollingInterval with
  | some timerId =>
    { s with activeIntervals := s.activeIntervals.erase timerId,
             pollingInterval := none }
  | none => s

/-- The timer invariant: the live intervals are exactly the remembered one. -/
def pollInv (s : PollTimers) : Prop :=
  s.activeIntervals = s.pollingInterval.toList

/-- One timer operation: `true` is a `startPolling`, `false` a `stopPolling`. -/
def stepPollTimers (s : PollTimers) (startOp : Bool) : PollTimers :=
  if startOp then startPollingTimers s else stopPollingTimers s

/-- Any sequence of start/stop operations from a fresh instance. -/
def runPollOps (ops : List Bool) : PollTimers :=
  ops.foldl stepPollTimers initPollTimers

end AudioSeparationAPI

namespace UseAudioSeparation

/-- The slice of `useAudioSeparation` hook state the polling callbacks write. -/
structure HookState where
  isProcessing : Bool
  progress : Nat
  statusMessage : String
  result : Option AudioTask
  error : Option String
deriving DecidableEq, Repr

/-- Status text set on completion. -/
def completedMessage : String := "完成！"

/-- Fallback error text when a failed task carries no error string. -/
def pollFailureFallback : String := "處理失敗"

/-- An `AudioSeparationAPI` instance together with the hook state its polling
callbacks mutate. -/
structure PollingClient where
  timers : AudioSeparationAPI.PollTimers
  hook : HookState
deriving DecidableEq, Repr

/-- The `onUpdate` callback `processAudio` passes to `startPolling`. -/
def onUpdate (h : HookState) (statusData : AudioTask) : HookState :=
  { h with progress := statusData.progress, statusMessage := statusData.message }

/-- The `onComplete` callback. -/
def onComplete (h : HookState) (statusData : AudioTask) : HookState :=
  { h with progress := 100, statusMessage := completedMessage,
           result := some statusData, isProcessing := false }

/-- The `onError` callback: surface the message and leave processing mode. -/
def onError (h : HookState) (msg : String) : HookState :=
  { h with error := some msg, isProcessing := false }

/-- One tick of the `setInterval` body in `startPolling`.  A tick only fires
while the interval is live; `res` is the result of `getTaskStatus` (`.error`
when the request itself threw).  Terminal failure and request errors both stop
polling and invoke `onError`; completion stops polling and invokes
`onComplete`; anything else just updates progress. -/
def pollTick (s : PollingClient) (res : Except String AudioTask) : PollingClient :=
  match s.timers.pollingInterval with
  | none => s
  | some _ =>
    match res with
    | .error e =>
      { timers := AudioSeparationAPI.stopPollingTimers s.timers,
        hook := onError s.hook e }
    | .ok statusData =>
      let hook1 := onUpdate s.hook statusData
      match statusData.status with
      | .completed =>
        { timers := AudioSeparationAPI.stopPollingTimers s.timers,
          hook := onComplete hook1 statusData }
      | .failed =>
        { timers := AudioSeparationAPI.stopPollingTimers s.timers,
          hook := onError hook1 (jsOrElse statusData.error pollFailureFallback) }
      | _ => { s with hook := hook1 }

end UseAudioSeparation

namespace AudioUploader

/-- Size cap from `handleFileSelect`: 50 MB. -/
def maxSize : Nat := 50 * 1024 * 1024

/-- The accepted extension list. -/
def allowedExtensions : List String := [ ".wav", ".mp3", ".flac", ".ogg", ".m4a" ]

/-- The m4a extension, which additionally triggers a confirmation dialog. -/
def m4aExt : String := ".m4a"

/-- Index of the last dot in a character list, when there is one
(`String.lastIndexOf`). -/
def lastDotIndex : List Char → Option Nat
  | [] => none
  | c :: cs =>
    match lastDotIndex cs with
    | some i => some (i + 1)
    | none => if c = '.' then some 0 else none

/-- The extension computation
`file.name.toLowerCase().substring(file.name.lastIndexOf('.'))`; a dotless
name yields `substring(-1)`, which in JavaScript is the whole string. -/
def extensionOf (name : String) : String :=
  let lower := name.data.map Char.toLower
  match lastDotIndex name.data with
  | none => String.mk lower
  | some i => String.mk (lower.drop i)

/-- A selected file, as far as validation observes it. -/
structure SelectedFile where
  name : String
  size : Nat
deriving DecidableEq, Repr

/-- Result of `handleFileSelect`: either a rejection (alert / declined confirm,
no callback fired) or the acceptance that invokes `onFileSelect`. -/
inductive SelectOutcome
  | rejectedTooLarge
  | rejectedBadFormat
  | rejectedM4aDeclined
  | accepted (f : SelectedFile)
deriving DecidableEq, Repr

/-- Whether an outcome invoked `onFileSelect`. -/
def SelectOutcome.isAccepted : SelectOutcome → Bool
  | .accepted _ => true
  | _ => false

/-- The validation in `AudioUploader.handleFileSelect`; `m4aConfirm` is the
user's answer to the m4a compatibility dialog. -/
def handleFileSelect (f : SelectedFile) (m4aConfirm : Bool) : SelectOutcome :=
  let fileExtension := extensionOf f.name
  if maxSize < f.size then
    .rejectedTooLarge
  else if !(allowedExtensions.contains fileExtension) then
    .rejectedBadFormat
  else if fileExtension = m4aExt ∧ m4aConfirm = false then
    .rejectedM4aDeclined
  else
    .accepted f

end AudioUploader

/-- A concrete backend URL used in concrete instances. -/
def exUrlOne : String := "https://api-one.example"

/-- A second, distinct concrete backend URL. -/
def exUrlTwo : String := "https://api-two.example"

/-- A concrete probe error message. -/
def exErr : String := "fetch failed"

/-- A concrete file name with a disallowed extension. -/
def exBadName : String := "notes.txt"

/-- A configured email service with an empty cooldown map. -/
def exEmailState : EmailService.EmailState := ⟨true, []⟩

/-- A concrete webhook URL. -/
def exWebhook : String := "https://discord.example/webhook"

/-- A configured Discord notification service with an empty cooldown map. -/
def exNotifState : NotificationService.NotifState := ⟨some exWebhook, []⟩

/-- A concrete fresh id for a config record. -/
def exFreshId : String := "cfg-0001"

theorem alookup_ainsert_self {α : Type} (k : String) (v : α) (m : List (String × α)) :
    alookup k (ainsert k v m) = some v := by
  simp [alookup, ainsert]

theorem alookup_removeKey_ne {α : Type} (k k' : String) (m : List (String × α))
    (h : k ≠ k') : alookup k (removeKey k' m) = alookup k m := by
  induction m with
  | nil => rfl
  | cons p m ih =>
    cases p with
    | mk pk pv =>
      by_cases hp : pk = k'
      · subst hp
        simpa [removeKey, alookup, h] using ih
      · by_cases hkp : k = pk
        · simp [removeKey, alookup, hp, hkp]
        · simpa [removeKey, alookup, hp, hkp] using ih

theorem alookup_ainsert_ne {α : Type} (k k' : String) (v : α) (m : List (String × α))
    (h : k ≠ k') : alookup k (ainsert k' v m) = alookup k m := by
  simp only [ainsert, alookup, h, if_false]
  exact alookup_removeKey_ne k k' m h

theorem alookup_removeKey_self {α : Type} (k : String) (m : List (String × α)) :
    alookup k (removeKey k m) = none := by
  induction m with
  | nil => rfl
  | cons p m ih =>
    cases p with
    | mk pk pv =>
      by_cases hp : pk = k
      · subst hp
        simpa [removeKey, alookup] using ih
      · have hk : ¬ k = pk := fun hkk => hp hkk.symm
        simpa [removeKey, alookup, hp, hk] using ih

theorem string_append_left_cancel {a b c : String} (h : a ++ b = a ++ c) : b = c := by
  have hd := congrArg String.data h
  simp [String.data_append] at hd
  cases b
  cases c
  simp_all

theorem handleHealthyResponse_fst (apiUrl : String) (now : Nat)
    (st : ApiMonitor.ApiHealthStatus) :
    (ApiMonitor.handleHealthyResponse apiUrl now st).1
      = { isHealthy := true, lastCheck := now, lastError := none,
          consecutiveFailures := 0, uptime := st.uptime } := by
  unfold ApiMonitor.handleHealthyResponse
  dsimp only
  split <;> rfl

theorem handleUnhealthyResponse_fst (apiUrl : String) (now : Nat) (err : String)
    (st : ApiMonitor.ApiHealthStatus) :
    (ApiMonitor.handleUnhealthyResponse apiUrl now err st).1
      = { isHealthy := false, lastCheck := now, lastError := some err,
          consecutiveFailures := st.consecutiveFailures + 1, uptime := st.uptime } := by
  unfold ApiMonitor.handleUnhealthyResponse
  dsimp only
  split <;> rfl

theorem handleUnhealthyResponse_snd_of_unhealthy (apiUrl : String) (now : Nat)
    (err : String) (st : ApiMonitor.ApiHealthStatus) (h : st.isHealthy = false) :
    (ApiMonitor.handleUnhealthyResponse apiUrl now err st).2 = [] := by
  simp [ApiMonitor.handleUnhealthyResponse, h]

theorem handleHealthyResponse_snd_of_unhealthy (apiUrl : String) (now : Nat)
    (st : ApiMonitor.ApiHealthStatus) (h : st.isHealthy = false) (ht : 0 < now) :
    (ApiMonitor.handleHealthyResponse apiUrl now st).2
      = [ ApiMonitor.NotifyEvent.recovered apiUrl ] := by
  simp [ApiMonitor.handleHealthyResponse, h, ht]

theorem checkApiHealth_timer_fields (s : ApiMonitor.MonitorState) (apiUrl : String)
    (o : ApiMonitor.ProbeOutcome) :
    (ApiMonitor.checkApiHealth s apiUrl o).activeTimers = s.activeTimers
    ∧ (ApiMonitor.checkApiHealth s apiUrl o).monitoringIntervals = s.monitoringIntervals
    ∧ (ApiMonitor.checkApiHealth s apiUrl o).nextTimerId = s.nextTimerId := by
  unfold ApiMonitor.checkApiHealth
  cases alookup apiUrl s.healthStatus <;> exact ⟨rfl, rfl, rfl⟩

theorem stopMonitoring_status_fields (s : ApiMonitor.MonitorState) (apiUrl : String) :
    (ApiMonitor.stopMonitoring s apiUrl).healthStatus = s.healthStatus
    ∧ (ApiMonitor.stopMonitoring s apiUrl).notifLog = s.notifLog
    ∧ (ApiMonitor.stopMonitoring s apiUrl).probeCount = s.probeCount
    ∧ (ApiMonitor.stopMonitoring s apiUrl).nextTimerId = s.nextTimerId := by
  unfold ApiMonitor.stopMonitoring
  cases alookup apiUrl s.monitoringIntervals <;> exact ⟨rfl, rfl, rfl, rfl⟩

theorem checkApiHealth_failure_of_unhealthy (s : ApiMonitor.MonitorState)
    (apiUrl : String) (t : Nat) (e : String) (st : ApiMonitor.ApiHealthStatus)
    (hst : alookup apiUrl s.healthStatus = some st) (hh : st.isHealthy = false) :
    alookup apiUrl (ApiMonitor.checkApiHealth s apiUrl (.failure t e)).healthStatus
      = some ((ApiMonitor.handleUnhealthyResponse apiUrl t e st).1)
    ∧ (ApiMonitor.handleUnhealthyResponse apiUrl t e st).1.isHealthy = false
    ∧ (ApiMonitor.checkApiHealth s apiUrl (.failure t e)).notifLog = s.notifLog := by
  refine ⟨?_, ?_, ?_⟩
  · simp [ApiMonitor.checkApiHealth, hst, alookup_ainsert_self]
  · rw [handleUnhealthyResponse_fst]
  · simp [ApiMonitor.checkApiHealth, hst,
      handleUnhealthyResponse_snd_of_unhealthy apiUrl t e st hh]

theorem runFailures_silent (apiUrl : String) (fs : List (Nat × String)) :
    ∀ (s : ApiMonitor.MonitorState) (st : ApiMonitor.ApiHealthStatus),
      alookup apiUrl s.healthStatus = some st → st.isHealthy = false →
      ∃ st' : ApiMonitor.ApiHealthStatus,
        alookup apiUrl (ApiMonitor.runChecks s apiUrl
            (fs.map (fun p => ApiMonitor.ProbeOutcome.failure p.1 p.2))).healthStatus
          = some st'
        ∧ st'.isHealthy = false
        ∧ (ApiMonitor.runChecks s apiUrl
            (fs.map (fun p => ApiMonitor.ProbeOutcome.failure p.1 p.2))).notifLog
          = s.notifLog := by
  induction fs with
  | nil =>
    intro s st hst hh
    exact ⟨st, hst, hh, rfl⟩
  | cons p fs ih =>
    intro s st hst hh
    have hstep := checkApiHealth_failure_of_unhealthy s apiUrl p.1 p.2 st hst hh
    have hrec := ih (ApiMonitor.checkApiHealth s apiUrl (.failure p.1 p.2))
      ((ApiMonitor.handleUnhealthyResponse apiUrl p.1 p.2 st).1) hstep.1 hstep.2.1
    obtain ⟨st', h1, h2, h3⟩ := hrec
    refine ⟨st', ?_, h2, ?_⟩
    · simpa [ApiMonitor.runChecks] using h1
    · simp only [ApiMonitor.runChecks] at h3 ⊢
      simp [List.foldl_cons, h3, hstep.2.2]

theorem filter_erase_self (l : List (String × Nat)) (u : String) (i : Nat)
    (h : l.filter (fun p => decide (p.1 = u)) = [ (u, i) ]) :
    (l.erase (u, i)).filter (fun p => decide (p.1 = u)) = [] := by
  induction l with
  | nil => simp at h
  | cons a l ih =>
    by_cases ha : a = (u, i)
    · subst ha
      rw [List.erase_cons_head]
      simp at h ⊢
      exact h
    · rw [List.erase_cons_tail (by simp [ha])]
      by_cases hp : a.1 = u
      · exfalso
        simp [hp] at h
        exact ha h.1
      · simp only [List.filter_cons, hp, decide_eq_true_eq, if_false] at h ⊢
        exact ih h

theorem filter_erase_other (l : List (String × Nat)) (u v : String) (i : Nat)
    (hne : v ≠ u) :
    (l.erase (u, i)).filter (fun p => decide (p.1 = v))
      = l.filter (fun p => decide (p.1 = v)) := by
  induction l with
  | nil => rfl
  | cons a l ih =>
    by_cases ha : a = (u, i)
    · subst ha
      rw [List.erase_cons_head]
      have hu : ¬ ((u, i).1 = v) := fun hx => hne (hx.symm)
      simp [hu]
    · rw [List.erase_cons_tail (by simp [ha])]
      by_cases hp : a.1 = v
      · simp [hp, ih]
      · simp [hp, ih]

theorem timersInv_congr (s s' : ApiMonitor.MonitorState)
    (ha : s'.activeTimers = s.activeTimers)
    (hm : s'.monitoringIntervals = s.monitoringIntervals)
    (hinv : ApiMonitor.timersInv s) : ApiMonitor.timersInv s' := by
  intro u
  have hx := hinv u
  unfold ApiMonitor.timersOf at hx ⊢
  rw [ha, hm]
  exact hx

theorem stopMonitoring_timers (s : ApiMonitor.MonitorState) (apiUrl : String)
    (hinv : ApiMonitor.timersInv s) :
    ApiMonitor.timersInv (ApiMonitor.stopMonitoring s apiUrl)
    ∧ alookup apiUrl (ApiMonitor.stopMonitoring s apiUrl).monitoringIntervals = none := by
  unfold ApiMonitor.stopMonitoring
  cases hI : alookup apiUrl s.monitoringIntervals with
  | none => exact ⟨hinv, hI⟩
  | some timerId =>
    constructor
    · intro u
      by_cases hu : u = apiUrl
      · subst hu
        have hx := hinv u
        rw [hI] at hx
        unfold ApiMonitor.timersOf at hx ⊢
        dsimp only
        rw [filter_erase_self s.activeTimers u timerId hx, alookup_removeKey_self]
      · have hx := hinv u
        unfold ApiMonitor.timersOf at hx ⊢
        dsimp only
        rw [filter_erase_other s.activeTimers apiUrl u timerId hu,
          alookup_removeKey_ne u apiUrl s.monitoringIntervals hu]
        exact hx
    · exact alookup_removeKey_self apiUrl s.monitoringIntervals

theorem startMonitoringSetup_timers (s : ApiMonitor.MonitorState) (apiUrl : String)
    (now : Nat) (hinv : ApiMonitor.timersInv s) :
    ApiMonitor.timersInv (ApiMonitor.startMonitoringSetup s apiUrl now)
    ∧ ApiMonitor.timersOf apiUrl (ApiMonitor.startMonitoringSetup s apiUrl now)
        = [ (apiUrl, (ApiMonitor.stopMonitoring s apiUrl).nextTimerId) ] := by
  obtain ⟨hinv1, hnone⟩ := stopMonitoring_timers s apiUrl hinv
  have hof : ApiMonitor.timersOf apiUrl (ApiMonitor.stopMonitoring s apiUrl) = [] := by
    have hx := hinv1 apiUrl
    rw [hnone] at hx
    exact hx
  constructor
  · intro u
    unfold ApiMonitor.startMonitoringSetup
    dsimp only
    by_cases hu : u = apiUrl
    · subst hu
      unfold ApiMonitor.timersOf at hof ⊢
      dsimp only
      rw [List.filter_append, hof, alookup_ainsert_self]
      simp
    · have hx := hinv1 u
      unfold ApiMonitor.timersOf at hx ⊢
      dsimp only
      have hvu : ¬ (apiUrl = u) := fun hx => hu hx.symm
      rw [List.filter_append,
        alookup_ainsert_ne u apiUrl _ (ApiMonitor.stopMonitoring s apiUrl).monitoringIntervals hu]
      simp only [List.filter_cons, List.filter_nil, hvu, decide_eq_true_eq, if_false,
        List.append_nil]
      exact hx
  · unfold ApiMonitor.startMonitoringSetup
    unfold ApiMonitor.timersOf at hof ⊢
    dsimp only
    rw [List.filter_append, hof]
    simp

theorem startMonitoring_timers (s : ApiMonitor.MonitorState) (apiUrl : String)
    (now : Nat) (o : ApiMonitor.ProbeOutcome) (hinv : ApiMonitor.timersInv s) :
    ApiMonitor.timersInv (ApiMonitor.startMonitoring s apiUrl now o)
    ∧ ApiMonitor.timersOf apiUrl (ApiMonitor.startMonitoring s apiUrl now o)
        = [ (apiUrl, (ApiMonitor.stopMonitoring s apiUrl).nextTimerId) ] := by
  obtain ⟨hinv2, hof⟩ := startMonitoringSetup_timers s apiUrl now hinv
  have hcf := checkApiHealth_timer_fields (ApiMonitor.startMonitoringSetup s apiUrl now) apiUrl o
  have hts : (ApiMonitor.startMonitoring s apiUrl now o).activeTimers
      = (ApiMonitor.startMonitoringSetup s apiUrl now).activeTimers := hcf.1
  have hms : (ApiMonitor.startMonitoring s apiUrl now o).monitoringIntervals
      = (ApiMonitor.startMonitoringSetup s apiUrl now).monitoringIntervals := hcf.2.1
  refine ⟨timersInv_congr _ _ hts hms hinv2, ?_⟩
  unfold ApiMonitor.timersOf at hof ⊢
  rw [hts]
  exact hof

theorem startPollingTimers_spec (s : AudioSeparationAPI.PollTimers)
    (h : AudioSeparationAPI.pollInv s) :
    AudioSeparationAPI.pollInv (AudioSeparationAPI.startPollingTimers s)
    ∧ (AudioSeparationAPI.startPollingTimers s).activeIntervals = [ s.nextId ] := by
  unfold AudioSeparationAPI.pollInv at h ⊢
  unfold AudioSeparationAPI.startPollingTimers
  cases hpi : s.pollingInterval with
  | none =>
    rw [hpi] at h
    simp at h
    exact ⟨by simp [h], by simp [h]⟩
  | some timerId =>
    rw [hpi] at h
    simp at h
    exact ⟨by simp [h], by simp [h]⟩

theorem stopPollingTimers_spec (s : AudioSeparationAPI.PollTimers)
    (h : AudioSeparationAPI.pollInv s) :
    AudioSeparationAPI.pollInv (AudioSeparationAPI.stopPollingTimers s)
    ∧ (AudioSeparationAPI.stopPollingTimers s).activeIntervals = [] := by
  unfold AudioSeparationAPI.pollInv at h ⊢
  unfold AudioSeparationAPI.stopPollingTimers
  cases hpi : s.pollingInterval with
  | none =>
    rw [hpi] at h
    simp at h
    exact ⟨by simp [hpi, h], by simp [h]⟩
  | some timerId =>
    rw [hpi] at h
    simp at h
    exact ⟨by simp [h], by simp [h]⟩

theorem foldl_poll_inv (os : List Bool) :
    ∀ s : AudioSeparationAPI.PollTimers, AudioSeparationAPI.pollInv s →
      AudioSeparationAPI.pollInv (os.foldl AudioSeparationAPI.stepPollTimers s) := by
  induction os with
  | nil => intro s hs; exact hs
  | cons b os ih =>
    intro s hs
    cases b
    · exact ih _ (stopPollingTimers_spec s hs).1
    · exact ih _ (startPollingTimers_spec s hs).1

theorem length_le_one_of_pollInv (s : AudioSeparationAPI.PollTimers)
    (h : AudioSeparationAPI.pollInv s) : s.activeIntervals.length ≤ 1 := by
  rw [h]
  cases s.pollingInterval <;> simp

/-- C10: each `AudioSeparationAPI` instance holds at most one live polling
interval after any sequence of `startPolling` / `stopPolling` timer
operations from construction; moreover `startPolling` always clears a live
interval before scheduling the fresh one (so the new one is the only live
timer), and `stopPolling` leaves none. -/
theorem pollingTimers_at_most_one :
    (∀ ops : List Bool,
        AudioSeparationAPI.pollInv (AudioSeparationAPI.runPollOps ops)
        ∧ (AudioSeparationAPI.runPollOps ops).activeIntervals.length ≤ 1)
    ∧ (∀ s : AudioSeparationAPI.PollTimers, AudioSeparationAPI.pollInv s →
        (AudioSeparationAPI.startPollingTimers s).activeIntervals = [ s.nextId ]
        ∧ (AudioSeparationAPI.stopPollingTimers s).activeIntervals = []) := by
  constructor
  · intro ops
    have hinv : AudioSeparationAPI.pollInv (AudioSeparationAPI.runPollOps ops) :=
      foldl_poll_inv ops AudioSeparationAPI.initPollTimers rfl
    exact ⟨hinv, length_le_one_of_pollInv _ hinv⟩
  · intro s hs
    exact ⟨(startPollingTimers_spec s hs).2, (stopPollingTimers_spec s hs).2⟩

/-- Witness for C10: from a fresh instance, `startPolling` leaves exactly the
new interval live. -/
theorem pollingTimers_at_most_one_witness :
    AudioSeparationAPI.pollInv AudioSeparationAPI.initPollTimers
    ∧ (AudioSeparationAPI.startPollingTimers AudioSeparationAPI.initPollTimers).activeIntervals
        = [ 0 ] :=
  ⟨rfl, (pollingTimers_at_most_one.2 AudioSeparationAPI.initPollTimers rfl).1⟩

/-- C7: while polling is live, a poll-request error or a poll response with
terminal `failed` status moves the hook to the failed state (error surfaced,
`isProcessing` false) and stops polling: the interval handle is nulled, no
timer stays live, and a subsequent tick is a no-op; a poll request error is
treated exactly like task failure, not as a skipped tick. -/
theorem pollTick_failure_stops_and_surfaces
    (s : UseAudioSeparation.PollingClient) (timerId : Nat) (e : String) (t : AudioTask)
    (hact : s.timers.pollingInterval = some timerId)
    (hinv : AudioSeparationAPI.pollInv s.timers) :
    ((UseAudioSeparation.pollTick s (Except.error e)).timers.pollingInterval = none
      ∧ (UseAudioSeparation.pollTick s (Except.error e)).timers.activeIntervals = []
      ∧ (UseAudioSeparation.pollTick s (Except.error e)).hook.error = some e
      ∧ (UseAudioSeparation.pollTick s (Except.error e)).hook.isProcessing = false
      ∧ (∀ res : Except String AudioTask,
          UseAudioSeparation.pollTick (UseAudioSeparation.pollTick s (Except.error e)) res
            = UseAudioSeparation.pollTick s (Except.error e)))
    ∧ (t.status = TaskStatus.failed →
        (UseAudioSeparation.pollTick s (Except.ok t)).timers.pollingInterval = none
        ∧ (UseAudioSeparation.pollTick s (Except.ok t)).timers.activeIntervals = []
        ∧ (UseAudioSeparation.pollTick s (Except.ok t)).hook.error
            = some (jsOrElse t.error UseAudioSeparation.pollFailureFallback)
        ∧ (UseAudioSeparation.pollTick s (Except.ok t)).hook.isProcessing = false
        ∧ (∀ res : Except String AudioTask,
            UseAudioSeparation.pollTick (UseAudioSeparation.pollTick s (Except.ok t)) res
              = UseAudioSeparation.pollTick s (Except.ok t))) := by
  have hstop := stopPollingTimers_spec s.timers hinv
  have hstopnone : (AudioSeparationAPI.stopPollingTimers s.timers).pollingInterval = none := by
    unfold AudioSeparationAPI.stopPollingTimers
    rw [hact]
  constructor
  · have herr : UseAudioSeparation.pollTick s (Except.error e)
        = { timers := AudioSeparationAPI.stopPollingTimers s.timers,
            hook := UseAudioSeparation.onError s.hook e } := by
      unfold UseAudioSeparation.pollTick
      rw [hact]
    rw [herr]
    refine ⟨hstopnone, hstop.2, rfl, rfl, ?_⟩
    intro res
    unfold UseAudioSeparation.pollTick
    rw [hstopnone]
  · intro hfail
    have hok : UseAudioSeparation.pollTick s (Except.ok t)
        = { timers := AudioSeparationAPI.stopPollingTimers s.timers,
            hook := UseAudioSeparation.onError (UseAudioSeparation.onUpdate s.hook t)
              (jsOrElse t.error UseAudioSeparation.pollFailureFallback) } := by
      unfold UseAudioSeparation.pollTick
      rw [hact]
      dsimp only
      rw [hfail]
    rw [hok]
    refine ⟨hstopnone, hstop.2, rfl, rfl, ?_⟩
    intro res
    unfold UseAudioSeparation.pollTick
    rw [hstopnone]

/-- Witness for C7: a concrete live-polling client whose poll request errors
ends with polling stopped and the error surfaced. -/
theorem pollTick_failure_stops_and_surfaces_witness :
    ((⟨⟨1, [ 0 ], some 0⟩, ⟨true, 0, exErr, none, none⟩⟩ :
        UseAudioSeparation.PollingClient).timers.pollingInterval = some 0
      ∧ AudioSeparationAPI.pollInv (⟨⟨1, [ 0 ], some 0⟩, ⟨true, 0, exErr, none, none⟩⟩ :
        UseAudioSeparation.PollingClient).timers)
    ∧ ((UseAudioSeparation.pollTick
        (⟨⟨1, [ 0 ], some 0⟩, ⟨true, 0, exErr, none, none⟩⟩ :
          UseAudioSeparation.PollingClient) (Except.error exErr)).timers.pollingInterval = none
      ∧ (UseAudioSeparation.pollTick
        (⟨⟨1, [ 0 ], some 0⟩, ⟨true, 0, exErr, none, none⟩⟩ :
          UseAudioSeparation.PollingClient) (Except.error exErr)).timers.activeIntervals = []
      ∧ (UseAudioSeparation.pollTick
        (⟨⟨1, [ 0 ], some 0⟩, ⟨true, 0, exErr, none, none⟩⟩ :
          UseAudioSeparation.PollingClient) (Except.error exErr)).hook.error = some exErr
      ∧ (UseAudioSeparation.pollTick
        (⟨⟨1, [ 0 ], some 0⟩, ⟨true, 0, exErr, none, none⟩⟩ :
          UseAudioSeparation.PollingClient) (Except.error exErr)).hook.isProcessing = false) := by
  have h := pollTick_failure_stops_and_surfaces
    (⟨⟨1, [ 0 ], some 0⟩, ⟨true, 0, exErr, none, none⟩⟩ : UseAudioSeparation.PollingClient)
    0 exErr ⟨TaskStatus.failed, 0, exErr, none⟩ rfl rfl
  exact ⟨⟨rfl, rfl⟩, h.1.1, h.1.2.1, h.1.2.2.1, h.1.2.2.2.1⟩

/-- C8: a selected file larger than 50 MB or whose (lower-cased, last-dot)
extension is outside the allowed set is rejected by `handleFileSelect`:
`onFileSelect` is never invoked for it, so no network call is issued. -/
theorem handleFileSelect_rejects_invalid
    (f : AudioUploader.SelectedFile) (m4aConfirm : Bool)
    (h : AudioUploader.maxSize < f.size
        ∨ AudioUploader.allowedExtensions.contains (AudioUploader.extensionOf f.name)
            = false) :
    (AudioUploader.handleFileSelect f m4aConfirm).isAccepted = false := by
  cases h with
  | inl hsize =>
    simp [AudioUploader.handleFileSelect, hsize, AudioUploader.SelectOutcome.isAccepted]
  | inr hext =>
    by_cases hsize : AudioUploader.maxSize < f.size
    · simp [AudioUploader.handleFileSelect, hsize, AudioUploader.SelectOutcome.isAccepted]
    · have hext' : ¬ (AudioUploader.extensionOf f.name ∈ AudioUploader.allowedExtensions) := by
        simpa using hext
      simp [AudioUploader.handleFileSelect, hsize, hext', AudioUploader.SelectOutcome.isAccepted]

/-- Witness for C8: a 10-byte file with a `.txt` extension is rejected. -/
theorem handleFileSelect_rejects_invalid_witness :
    (AudioUploader.maxSize < 10
      ∨ AudioUploader.allowedExtensions.contains (AudioUploader.extensionOf exBadName)
          = false)
    ∧ (AudioUploader.handleFileSelect ⟨exBadName, 10⟩ true).isAccepted = false :=
  ⟨Or.inr (by decide), handleFileSelect_rejects_invalid ⟨exBadName, 10⟩ true (Or.inr (by decide))⟩

/-- C1 (counterexample): from the state `startMonitoring` establishes —
unhealthy by default — the first failed probe fires NO notification (there is
no healthy→unhealthy edge), and the trailing failure of the sequence
`[fail, fail, success, fail]` DOES fire the error notification; the claimed
placement of the two notifications is therefore wrong. -/
theorem monitorSequence_firstFailure_silent :
    (ApiMonitor.runChecks
        (ApiMonitor.startMonitoringSetup ApiMonitor.initMonitorState exUrlOne 1) exUrlOne
        [ ApiMonitor.ProbeOutcome.failure 2 exErr ]).notifLog = []
    ∧ (ApiMonitor.runChecks
        (ApiMonitor.startMonitoringSetup ApiMonitor.initMonitorState exUrlOne 1) exUrlOne
        [ ApiMonitor.ProbeOutcome.failure 2 exErr, ApiMonitor.ProbeOutcome.failure 3 exErr,
          ApiMonitor.ProbeOutcome.success 4, ApiMonitor.ProbeOutcome.failure 5 exErr ]).notifLog
      = [ ApiMonitor.NotifyEvent.recovered exUrlOne,
          ApiMonitor.NotifyEvent.connectionError exUrlOne 1 ] := by
  exact ⟨by decide, by decide⟩

/-- C1 (amended): for the probe sequence `[fail, fail, success, fail]` applied
from the state established by `startMonitoring` (whose status record is
unhealthy by default), with threshold 1 and no cooldown in effect, exactly two
notifications fire — but they are one recovery notification after the success
(unhealthy→healthy edge; the two leading failures fire nothing because the
state never was healthy) and one error notification after the trailing
failure (healthy→unhealthy edge). -/
theorem monitorSequence_two_notifications
    (apiUrl : String) (t0 t1 t2 t3 t4 : Nat) (e1 e2 e4 : String) (h3 : 0 < t3) :
    (ApiMonitor.runChecks
        (ApiMonitor.startMonitoringSetup ApiMonitor.initMonitorState apiUrl t0) apiUrl
        [ ApiMonitor.ProbeOutcome.failure t1 e1,
          ApiMonitor.ProbeOutcome.failure t2 e2 ]).notifLog = []
    ∧ (ApiMonitor.runChecks
        (ApiMonitor.startMonitoringSetup ApiMonitor.initMonitorState apiUrl t0) apiUrl
        [ ApiMonitor.ProbeOutcome.failure t1 e1, ApiMonitor.ProbeOutcome.failure t2 e2,
          ApiMonitor.ProbeOutcome.success t3 ]).notifLog
      = [ ApiMonitor.NotifyEvent.recovered apiUrl ]
    ∧ (ApiMonitor.runChecks
        (ApiMonitor.startMonitoringSetup ApiMonitor.initMonitorState apiUrl t0) apiUrl
        [ ApiMonitor.ProbeOutcome.failure t1 e1, ApiMonitor.ProbeOutcome.failure t2 e2,
          ApiMonitor.ProbeOutcome.success t3, ApiMonitor.ProbeOutcome.failure t4 e4 ]).notifLog
      = [ ApiMonitor.NotifyEvent.recovered apiUrl,
          ApiMonitor.NotifyEvent.connectionError apiUrl 1 ] := by
  refine ⟨?_, ?_, ?_⟩ <;>
    simp [ApiMonitor.runChecks, ApiMonitor.startMonitoringSetup, ApiMonitor.stopMonitoring,
      ApiMonitor.checkApiHealth, ApiMonitor.initMonitorState, ApiMonitor.initialStatus,
      ApiMonitor.handleHealthyResponse, ApiMonitor.handleUnhealthyResponse,
      ApiMonitor.MAX_RETRIES, alookup, ainsert, removeKey, h3]

/-- Witness for C1 (amended) at concrete times and URL. -/
theorem monitorSequence_two_notifications_witness :
    (0 < 4)
    ∧ (ApiMonitor.runChecks
        (ApiMonitor.startMonitoringSetup ApiMonitor.initMonitorState exUrlTwo 1) exUrlTwo
        [ ApiMonitor.ProbeOutcome.failure 2 exErr, ApiMonitor.ProbeOutcome.failure 3 exErr,
          ApiMonitor.ProbeOutcome.success 4, ApiMonitor.ProbeOutcome.failure 5 exErr ]).notifLog
      = [ ApiMonitor.NotifyEvent.recovered exUrlTwo,
          ApiMonitor.NotifyEvent.connectionError exUrlTwo 1 ] :=
  ⟨by decide,
    (monitorSequence_two_notifications exUrlTwo 1 2 3 4 5 exErr exErr exErr (by decide)).2.2⟩

/-- C2: `startMonitoring` installs a status record that is unhealthy with zero
consecutive failures, so after any number of failed probes the very first
successful probe is an unhealthy→healthy transition and emits exactly one
recovery notification — even when the backend was never observed down
(zero preceding failures). -/
theorem startMonitoring_first_success_recovers
    (s : ApiMonitor.MonitorState) (apiUrl : String) (now t : Nat)
    (fs : List (Nat × String)) (ht : 0 < t) :
    alookup apiUrl (ApiMonitor.startMonitoringSetup s apiUrl now).healthStatus
        = some (ApiMonitor.initialStatus now)
    ∧ (ApiMonitor.initialStatus now).isHealthy = false
    ∧ (ApiMonitor.initialStatus now).consecutiveFailures = 0
    ∧ (ApiMonitor.runChecks (ApiMonitor.startMonitoringSetup s apiUrl now) apiUrl
        (fs.map (fun p => ApiMonitor.ProbeOutcome.failure p.1 p.2)
          ++ [ ApiMonitor.ProbeOutcome.success t ])).notifLog
      = s.notifLog ++ [ ApiMonitor.NotifyEvent.recovered apiUrl ] := by
  have hget : alookup apiUrl (ApiMonitor.startMonitoringSetup s apiUrl now).healthStatus
      = some (ApiMonitor.initialStatus now) := by
    unfold ApiMonitor.startMonitoringSetup
    dsimp only
    exact alookup_ainsert_self apiUrl (ApiMonitor.initialStatus now) _
  have hlog : (ApiMonitor.startMonitoringSetup s apiUrl now).notifLog = s.notifLog := by
    unfold ApiMonitor.startMonitoringSetup
    dsimp only
    exact (stopMonitoring_status_fields s apiUrl).2.1
  refine ⟨hget, rfl, rfl, ?_⟩
  obtain ⟨st', h1, h2, h3⟩ := runFailures_silent apiUrl fs
    (ApiMonitor.startMonitoringSetup s apiUrl now) (ApiMonitor.initialStatus now) hget rfl
  have hstep : ApiMonitor.runChecks (ApiMonitor.startMonitoringSetup s apiUrl now) apiUrl
      (fs.map (fun p => ApiMonitor.ProbeOutcome.failure p.1 p.2)
        ++ [ ApiMonitor.ProbeOutcome.success t ])
      = ApiMonitor.checkApiHealth
          (ApiMonitor.runChecks (ApiMonitor.startMonitoringSetup s apiUrl now) apiUrl
            (fs.map (fun p => ApiMonitor.ProbeOutcome.failure p.1 p.2)))
          apiUrl (ApiMonitor.ProbeOutcome.success t) := by
    unfold ApiMonitor.runChecks
    rw [List.foldl_append]
    rfl
  rw [hstep]
  simp [ApiMonitor.checkApiHealth, h1,
    handleHealthyResponse_snd_of_unhealthy apiUrl t st' h2 ht, h3, hlog]

/-- Witness for C2: a freshly started monitor whose first probe succeeds at
time 2 logs exactly the recovery notification. -/
theorem startMonitoring_first_success_recovers_witness :
    (0 < 2)
    ∧ (ApiMonitor.runChecks
        (ApiMonitor.startMonitoringSetup ApiMonitor.initMonitorState exUrlOne 1) exUrlOne
        (([] : List (Nat × String)).map (fun p => ApiMonitor.ProbeOutcome.failure p.1 p.2)
          ++ [ ApiMonitor.ProbeOutcome.success 2 ])).notifLog
      = ApiMonitor.initMonitorState.notifLog ++ [ ApiMonitor.NotifyEvent.recovered exUrlOne ] :=
  ⟨by decide,
    (startMonitoring_first_success_recovers ApiMonitor.initMonitorState exUrlOne 1 2 []
      (by decide)).2.2.2⟩

/-- C6 (counterexample): for a URL with no status record (never monitored),
`checkNow` issues NO probe and returns null rather than a record reflecting a
forced probe — refuting the claim for "every URL". -/
theorem checkNow_unmonitored_no_probe :
    (ApiMonitor.checkNow ApiMonitor.initMonitorState exUrlOne
        (ApiMonitor.ProbeOutcome.success 5)).1 = none
    ∧ (ApiMonitor.checkNow ApiMonitor.initMonitorState exUrlOne
        (ApiMonitor.ProbeOutcome.success 5)).2.probeCount
      = ApiMonitor.initMonitorState.probeCount := by
  exact ⟨rfl, rfl⟩

/-- C6 (amended): for every URL that has a status record (i.e. after
`startMonitoring`), `checkNow` does force one probe (the fetch counter
increments) and returns the record produced by that probe: healthy with the
probe time on success, unhealthy with the probe time, error and incremented
failure counter on failure. -/
theorem checkNow_monitored_reflects_probe
    (s : ApiMonitor.MonitorState) (apiUrl : String) (st : ApiMonitor.ApiHealthStatus)
    (o : ApiMonitor.ProbeOutcome) (h : alookup apiUrl s.healthStatus = some st) :
    (ApiMonitor.checkNow s apiUrl o).2.probeCount = s.probeCount + 1
    ∧ (∀ t : Nat, o = ApiMonitor.ProbeOutcome.success t →
        (ApiMonitor.checkNow s apiUrl o).1
          = some { isHealthy := true, lastCheck := t, lastError := none,
                   consecutiveFailures := 0, uptime := st.uptime })
    ∧ (∀ (t : Nat) (e : String), o = ApiMonitor.ProbeOutcome.failure t e →
        (ApiMonitor.checkNow s apiUrl o).1
          = some { isHealthy := false, lastCheck := t, lastError := some e,
                   consecutiveFailures := st.consecutiveFailures + 1,
                   uptime := st.uptime }) := by
  refine ⟨?_, ?_, ?_⟩
  · simp [ApiMonitor.checkNow, ApiMonitor.checkApiHealth, h]
  · intro t ho
    subst ho
    simp [ApiMonitor.checkNow, ApiMonitor.checkApiHealth, ApiMonitor.getHealthStatus, h,
      alookup_ainsert_self, handleHealthyResponse_fst]
  · intro t e ho
    subst ho
    simp [ApiMonitor.checkNow, ApiMonitor.checkApiHealth, ApiMonitor.getHealthStatus, h,
      alookup_ainsert_self, handleUnhealthyResponse_fst]

/-- Witness for C6 (amended): a freshly started monitor probed successfully at
time 7 returns the healthy record of that probe. -/
theorem checkNow_monitored_reflects_probe_witness :
    alookup exUrlOne
        (ApiMonitor.startMonitoringSetup ApiMonitor.initMonitorState exUrlOne 1).healthStatus
      = some (ApiMonitor.initialStatus 1)
    ∧ (ApiMonitor.checkNow (ApiMonitor.startMonitoringSetup ApiMonitor.initMonitorState exUrlOne 1)
        exUrlOne (ApiMonitor.ProbeOutcome.success 7)).1
      = some { isHealthy := true, lastCheck := 7, lastError := none,
               consecutiveFailures := 0, uptime := (ApiMonitor.initialStatus 1).uptime } :=
  ⟨by decide,
    (checkNow_monitored_reflects_probe
      (ApiMonitor.startMonitoringSetup ApiMonitor.initMonitorState exUrlOne 1) exUrlOne
      (ApiMonitor.initialStatus 1) (ApiMonitor.ProbeOutcome.success 7) (by decide)).2.1 7 rfl⟩

/-- C9: `startMonitoring` is idempotent per URL with respect to timers — it
cancels any existing interval for the URL before scheduling a new one, so
after calling it twice in a row for the same URL exactly one recurring timer
for that URL is live (and the timer bookkeeping invariant is preserved). -/
theorem startMonitoring_idempotent_timers
    (s : ApiMonitor.MonitorState) (apiUrl : String) (n1 n2 : Nat)
    (o1 o2 : ApiMonitor.ProbeOutcome) (hinv : ApiMonitor.timersInv s) :
    ApiMonitor.timersInv (ApiMonitor.startMonitoring s apiUrl n1 o1)
    ∧ (ApiMonitor.timersOf apiUrl
        (ApiMonitor.startMonitoring (ApiMonitor.startMonitoring s apiUrl n1 o1)
          apiUrl n2 o2)).length = 1 := by
  obtain ⟨hinv1, _⟩ := startMonitoring_timers s apiUrl n1 o1 hinv
  obtain ⟨_, hof2⟩ := startMonitoring_timers (ApiMonitor.startMonitoring s apiUrl n1 o1)
    apiUrl n2 o2 hinv1
  exact ⟨hinv1, by rw [hof2]; rfl⟩

/-- Witness for C9: starting monitoring twice from a fresh monitor leaves one
live timer for the URL. -/
theorem startMonitoring_idempotent_timers_witness :
    ApiMonitor.timersInv ApiMonitor.initMonitorState
    ∧ (ApiMonitor.timersOf exUrlOne
        (ApiMonitor.startMonitoring
          (ApiMonitor.startMonitoring ApiMonitor.initMonitorState exUrlOne 1
            (ApiMonitor.ProbeOutcome.success 1))
          exUrlOne 2 (ApiMonitor.ProbeOutcome.success 2))).length = 1 :=
  ⟨fun _ => rfl,
    (startMonitoring_idempotent_timers ApiMonitor.initMonitorState exUrlOne 1 2
      (ApiMonitor.ProbeOutcome.success 1) (ApiMonitor.ProbeOutcome.success 2)
      (fun _ => rfl)).2⟩

/-- C3: with the email transport configured, `sendNotification` skips delivery
(does not invoke the transporter and returns a not-sent result) exactly when
the composite key is in cooldown — and the cooldown record holds only times of
successful sends: the per-key timestamp is written exactly when delivery
succeeds, so a delivery failure leaves the record unchanged (and returns
`false`); the design default window is 180 minutes. -/
theorem emailSendNotification_cooldown_spec
    (st : EmailService.EmailState) (severity : Severity) (title : String)
    (apiUrl : Option String) (now : Nat) (deliveryOk : Bool)
    (htr : st.hasTransporter = true) :
    ((EmailService.sendNotification st severity title apiUrl now deliveryOk).attempted = false
      ↔ EmailService.isInCooldown now st
          (EmailService.notificationKey severity title apiUrl) = true)
    ∧ (EmailService.sendNotification st severity title apiUrl now deliveryOk).state.lastNotificationTime
      = (if (EmailService.sendNotification st severity title apiUrl now deliveryOk).sent then
          ainsert (EmailService.notificationKey severity title apiUrl) now st.lastNotificationTime
        else st.lastNotificationTime)
    ∧ (deliveryOk = false →
        (EmailService.sendNotification st severity title apiUrl now deliveryOk).state = st
        ∧ (EmailService.sendNotification st severity title apiUrl now deliveryOk).sent = false)
    ∧ EmailService.COOLDOWN_MINUTES = 180 := by
  have htr' : ¬ (st.hasTransporter = false) := by simp [htr]
  unfold EmailService.sendNotification
  cases hcd : EmailService.isInCooldown now st
      (EmailService.notificationKey severity title apiUrl) <;>
    cases deliveryOk <;>
      simp [htr', hcd, EmailService.COOLDOWN_MINUTES]

/-- Witness for C3 at a configured service, empty cooldown map and successful
delivery. -/
theorem emailSendNotification_cooldown_spec_witness :
    exEmailState.hasTransporter = true
    ∧ ((EmailService.sendNotification exEmailState .error EmailService.connectionErrorTitle
          (some exUrlOne) 5 true).attempted = false
        ↔ EmailService.isInCooldown 5 exEmailState
            (EmailService.notificationKey .error EmailService.connectionErrorTitle (some exUrlOne))
          = true) :=
  ⟨rfl, (emailSendNotification_cooldown_spec exEmailState .error
      EmailService.connectionErrorTitle (some exUrlOne) 5 true rfl).1⟩

/-- C4 (counterexample): with the Discord webhook transport configured, a
successfully delivered connection-error notification about one backend URL
puts the connection-error notification of a DIFFERENT backend URL into
cooldown — the second call is skipped although its delivery would have
succeeded, because the `NotificationService` cooldown key omits the URL. -/
theorem discordCooldown_shared_across_urls :
    (NotificationService.notifyApiConnectionError exNotifState exUrlOne 1000 true).1 = true
    ∧ (NotificationService.notifyApiConnectionError
        (NotificationService.notifyApiConnectionError exNotifState exUrlOne 1000 true).2
        exUrlTwo 2000 true).1 = false := by
  exact ⟨by decide, by decide⟩

/-- C4 (amended): the EMAIL transport's cooldown key does incorporate the
target URL, so there a send about one (non-empty) URL never changes the
cooldown state of an equal-severity, equal-title notification about a
different URL; the Discord `NotificationService`, however, keys only on
severity and title, so its notifications about different URLs share one
cooldown key (counterexample above). -/
theorem emailCooldown_scoped_per_url
    (st : EmailService.EmailState) (severity : Severity) (title u1 u2 : String)
    (now now' : Nat) (deliveryOk : Bool)
    (hne : u1 ≠ u2) (h1 : u1 ≠ "") (h2 : u2 ≠ "") :
    EmailService.notificationKey severity title (some u1)
        ≠ EmailService.notificationKey severity title (some u2)
    ∧ EmailService.isInCooldown now'
        (EmailService.sendNotification st severity title (some u1) now deliveryOk).state
        (EmailService.notificationKey severity title (some u2))
      = EmailService.isInCooldown now' st
          (EmailService.notificationKey severity title (some u2)) := by
  have hkey : EmailService.notificationKey severity title (some u1)
      ≠ EmailService.notificationKey severity title (some u2) := by
    unfold EmailService.notificationKey
    simp [jsOrElse, h1, h2]
    intro hx
    exact hne (string_append_left_cancel hx)
  have hkey' : EmailService.notificationKey severity title (some u2)
      ≠ EmailService.notificationKey severity title (some u1) := fun hx => hkey hx.symm
  refine ⟨hkey, ?_⟩
  have hmap : alookup (EmailService.notificationKey severity title (some u2))
      (EmailService.sendNotification st severity title (some u1) now
        deliveryOk).state.lastNotificationTime
      = alookup (EmailService.notificationKey severity title (some u2))
          st.lastNotificationTime := by
    unfold EmailService.sendNotification
    by_cases htr : st.hasTransporter = false
    · simp [htr]
    · cases hcd : EmailService.isInCooldown now st
          (EmailService.notificationKey severity title (some u1)) <;>
        cases deliveryOk <;>
          simp [htr, hcd,
            alookup_ainsert_ne (EmailService.notificationKey severity title (some u2))
              (EmailService.notificationKey severity title (some u1)) now
              st.lastNotificationTime hkey']
  unfold EmailService.isInCooldown isInCooldownAt
  rw [hmap]

/-- Witness for C4 (amended) at two concrete distinct URLs. -/
theorem emailCooldown_scoped_per_url_witness :
    (exUrlOne ≠ exUrlTwo ∧ exUrlOne ≠ "" ∧ exUrlTwo ≠ "")
    ∧ EmailService.isInCooldown 9
        (EmailService.sendNotification exEmailState .error EmailService.connectionErrorTitle
          (some exUrlOne) 5 true).state
        (EmailService.notificationKey .error EmailService.connectionErrorTitle (some exUrlTwo))
      = EmailService.isInCooldown 9 exEmailState
          (EmailService.notificationKey .error EmailService.connectionErrorTitle (some exUrlTwo)) :=
  ⟨⟨by decide, by decide, by decide⟩,
    (emailCooldown_scoped_per_url exEmailState .error EmailService.connectionErrorTitle
      exUrlOne exUrlTwo 5 9 true (by decide) (by decide) (by decide)).2⟩

/-- C5: a `POST /api/config` whose admin password mismatches is rejected with
401 and leaves the stored config unchanged; with the correct password the
record is wholly replaced — fresh `updatedAt`, the request's URL, the
request's description (or the fixed fallback) — and nothing except the id
depends on the previous record, so the previous description is never
retained. -/
theorem postApiConfig_auth_and_replace
    (ADMIN_PASSWORD : String) (req : Routes.UpdateApiConfigRequest)
    (prev : Option MemStorage.ApiConfig) (freshId : String) (now : Nat) :
    (req.adminPassword ≠ ADMIN_PASSWORD →
        Routes.postApiConfig ADMIN_PASSWORD req prev freshId now = (401, prev))
    ∧ (req.adminPassword = ADMIN_PASSWORD →
        Routes.postApiConfig ADMIN_PASSWORD req prev freshId now
          = (200, some
              { id := jsOrElse (prev.map (fun c => c.id)) freshId,
                apiUrl := req.apiUrl,
                isActive := true,
                description := some (jsOrElse req.description Routes.defaultDescription),
                updatedAt := now,
                updatedBy := some Routes.adminLabel })
        ∧ (∀ p1 p2 : MemStorage.ApiConfig, p1.id = p2.id →
            Routes.postApiConfig ADMIN_PASSWORD req (some p1) freshId now
              = Routes.postApiConfig ADMIN_PASSWORD req (some p2) freshId now)) := by
  constructor
  · intro hne
    simp [Routes.postApiConfig, hne]
  · intro heq
    constructor
    · simp [Routes.postApiConfig, heq, MemStorage.setApiConfig]
    · intro p1 p2 hid
      simp [Routes.postApiConfig, heq, MemStorage.setApiConfig, hid]

/-- Witness for C5: a correct-password request against the empty store yields
200 and the fully fresh record. -/
theorem postApiConfig_auth_and_replace_witness :
    ((⟨exUrlOne, none, Routes.defaultAdminPassword⟩ :
        Routes.UpdateApiConfigRequest).adminPassword = Routes.defaultAdminPassword)
    ∧ Routes.postApiConfig Routes.defaultAdminPassword
        (⟨exUrlOne, none, Routes.defaultAdminPassword⟩ : Routes.UpdateApiConfigRequest)
        none exFreshId 5
      = (200, some
          { id := jsOrElse ((none : Option MemStorage.ApiConfig).map (fun c => c.id)) exFreshId,
            apiUrl := (⟨exUrlOne, none, Routes.defaultAdminPassword⟩ :
              Routes.UpdateApiConfigRequest).apiUrl,
            isActive := true,
            description := some (jsOrElse (⟨exUrlOne, none, Routes.defaultAdminPassword⟩ :
              Routes.UpdateApiConfigRequest).description Routes.defaultDescription),
            updatedAt := 5,
            updatedBy := some Routes.adminLabel }) :=
  ⟨rfl, ((postApiConfig_auth_and_replace Routes.defaultAdminPassword
      ⟨exUrlOne, none, Routes.defaultAdminPassword⟩ none exFreshId 5).2 rfl).1⟩
